import Mathlib

/-!
Shallow embedding of karmada's cluster-status controller
(pkg/controllers/status/cluster_status_controller.go) and proofs of the
spec's claims about it. Impure collaborator calls (HTTP probes, discovery,
list calls, the status write) are passed in explicitly as data; machine
integers are modelled by Int/Nat (no overflow is relevant at these sizes);
Go errors are modelled by Option/Except with String payloads.
-/

namespace Karmada

/-- Instants and durations in milliseconds; stands in for both time.Duration
and metav1.Time (only equality and copying of times matter to the code). -/
abbrev Time := Nat

/-- Go error payload (only nil-ness and propagation matter). -/
abbrev GoError := String

/-- clusterStatusRetryInterval: the interval between two retries (500ms). -/
def clusterStatusRetryInterval : Nat := 500

/-- clusterStatusRetryTimeout: the maximum time to wait for cluster status (2s). -/
def clusterStatusRetryTimeout : Nat := 2000

/-- Reason string of the ready condition when the cluster is healthy. -/
def clusterReady : String := "ClusterReady"

/-- Message of the ready condition when the cluster is healthy. -/
def clusterHealthy : String := "cluster is reachable and health endpoint responded with ok"

/-- Reason string when the cluster is reachable but unhealthy. -/
def clusterNotReady : String := "ClusterNotReady"

/-- Message when the cluster is reachable but unhealthy. -/
def clusterUnhealthy : String := "cluster is reachable but health endpoint responded without ok"

/-- Reason string when the cluster is not reachable. -/
def clusterNotReachableReason : String := "ClusterNotReachable"

/-- Message when the cluster is not reachable. -/
def clusterNotReachableMsg : String := "cluster is not reachable"

/-- Modelled from the spec: v1alpha1.ClusterConditionReady is declared in the
repository's apis package, which is not under src/. Spec §3: conditions have
"type fixed to Ready". -/
def ClusterConditionReady : String := "Ready"

/-- metav1.ConditionTrue. -/
def conditionTrue : String := "True"

/-- metav1.ConditionFalse. -/
def conditionFalse : String := "False"

/-- http.StatusOK. -/
def statusOK : Nat := 200

/-- http.StatusNotFound. -/
def statusNotFound : Nat := 404

/-- resource.Quantity, modelled by its exact numeric value in milli-units
together with its format. NewMilliQuantity n f carries milli-value n;
NewQuantity n f carries milli-value 1000*n. Quantities appearing here
(resource requests and allocatable capacity) are non-negative. -/
structure Quantity where
  milli : Int
  format : String
deriving DecidableEq, Repr

/-- resource.DecimalSI. -/
def DecimalSI : String := "DecimalSI"

/-- resource.BinarySI. -/
def BinarySI : String := "BinarySI"

/-- Quantity.MilliValue. -/
def Quantity.milliValue (q : Quantity) : Int := q.milli

/-- Quantity.Value: the value rounded up to the nearest integer (exact for
the whole-unit quantities that occur here; quantities are non-negative). -/
def Quantity.value (q : Quantity) : Int := (q.milli + 999) / 1000

/-- resource.NewMilliQuantity. -/
def Quantity.newMilli (n : Int) (f : String) : Quantity := ⟨n, f⟩

/-- resource.NewQuantity. -/
def Quantity.newQuantity (n : Int) (f : String) : Quantity := ⟨n * 1000, f⟩

/-- Quantity.Add: adds the values; the receiver keeps its format. -/
def Quantity.add (q v : Quantity) : Quantity := ⟨q.milli + v.milli, q.format⟩

/-- corev1.ResourceList: a map from resource name to quantity, embedded as an
association list with unique keys (Go maps have unique keys; iteration order
never affects the results computed here, so list order stands in for it). -/
abbrev ResourceList := List (String × Quantity)

/-- First-match lookup in a ResourceList (map indexing). -/
def ResourceList.lookupQ (rl : ResourceList) (k : String) : Option Quantity :=
  match rl with
  | [] => none
  | p :: rest => if p.1 == k then some p.2 else ResourceList.lookupQ rest k

/-- metav1.Condition (also standing in for corev1.NodeCondition and
corev1.PodCondition) restricted to the fields the controller touches. -/
structure Condition where
  type : String
  status : String
  reason : String
  message : String
  lastTransitionTime : Time
deriving DecidableEq, Repr

/-- v1alpha1.APIEnablement. -/
structure APIEnablement where
  groupVersion : String
  resources : List String
deriving DecidableEq, Repr

/-- v1alpha1.NodeSummary. -/
structure NodeSummary where
  totalNum : Nat
  readyNum : Nat
  allocatable : ResourceList
  used : ResourceList
deriving DecidableEq, Repr

/-- Zero value of NodeSummary. -/
def NodeSummary.zero : NodeSummary := ⟨0, 0, [], []⟩

/-- v1alpha1.ClusterStatus. -/
structure ClusterStatus where
  conditions : List Condition
  kubernetesVersion : String
  apiEnablements : List APIEnablement
  nodeSummary : NodeSummary
deriving DecidableEq, Repr

/-- Zero value of ClusterStatus (v1alpha1.ClusterStatus{}). -/
def ClusterStatus.zero : ClusterStatus := ⟨[], "", [], NodeSummary.zero⟩

/-- Modelled from the spec: util.ClusterControllerFinalizer is declared in the
repository's util package, which is not under src/; only its identity as the
"status-owner" finalizer marker matters. -/
def ClusterControllerFinalizer : String := "karmada.io/cluster-controller"

/-- v1alpha1.Cluster restricted to the fields the controller reads/writes:
name, deletion-in-progress flag, finalizers, status. -/
structure Cluster where
  name : String
  deletionTimestampIsZero : Bool
  finalizers : List String
  status : ClusterStatus
deriving DecidableEq, Repr

/-- Semantic equality of quantities: equality.Semantic compares
resource.Quantity values with Cmp, which ignores the format. -/
def Quantity.semEq (a b : Quantity) : Bool := a.milli == b.milli

/-- Semantic equality of resource maps: same keys, semantically equal values
(Go map equality is order-free; membership-based comparison embeds that). -/
def ResourceList.semEq (a b : ResourceList) : Bool :=
  (a.all fun p => match b.lookupQ p.1 with
    | some q => Quantity.semEq p.2 q
    | none => false) &&
  (b.all fun p => match a.lookupQ p.1 with
    | some q => Quantity.semEq p.2 q
    | none => false)

/-- Semantic equality of node summaries. -/
def NodeSummary.semEq (a b : NodeSummary) : Bool :=
  a.totalNum == b.totalNum && a.readyNum == b.readyNum &&
  ResourceList.semEq a.allocatable b.allocatable &&
  ResourceList.semEq a.used b.used

/-- equality.Semantic.DeepEqual on ClusterStatus: structural equality except
that quantities are compared by value (metav1.Time values compare by instant,
which Time's Nat equality gives directly). -/
def semanticDeepEqual (a b : ClusterStatus) : Bool :=
  a.conditions == b.conditions &&
  a.kubernetesVersion == b.kubernetesVersion &&
  a.apiEnablements == b.apiEnablements &&
  NodeSummary.semEq a.nodeSummary b.nodeSummary

/-- Outcome of one HTTP GET against a health endpoint, as seen through the
Kubernetes REST client: a transport failure yields no response (the status
int stays 0) and a non-nil error; an HTTP response yields its status code,
and the Result error is non-nil exactly when the code lies outside the
success range [200, 206] that client-go's transformResponse accepts. The
fallback test at cluster_status_controller.go:167 (error non-nil together
with code 404) is written against exactly this contract. -/
inductive ProbeOutcome where
  | transportFailure
  | httpResponse (code : Nat)
deriving DecidableEq, Repr

/-- healthEndpointCheck: one GET against a health endpoint; returns the
status code it wrote through StatusCode and whether resp.Error() was
non-nil. -/
def healthEndpointCheck : ProbeOutcome → Nat × Bool
  | .transportFailure => (0, true)
  | .httpResponse code => (code, !(200 ≤ code && code ≤ 206 : Bool))

/-- getClusterHealthStatus: probe /readyz, fall back to /healthz when the
readyz endpoint is not installed (non-nil error with a 404 status), then map
the final (status, error) pair to (online, healthy). The two ProbeOutcome
arguments are the outcomes the member cluster would give for /readyz and
/healthz in this call. -/
def getClusterHealthStatus (readyz healthz : ProbeOutcome) : Bool × Bool :=
  let first := healthEndpointCheck readyz
  let final :=
    if first.2 && first.1 == statusNotFound then healthEndpointCheck healthz
    else first
  if final.2 then (false, false)
  else if final.1 != statusOK then (true, false)
  else (true, true)

/-- generateReadyCondition: maps (online, healthy) to a singleton condition
list built from one of three templates, all stamped with the current time
(metav1.Now() is passed in as currentTime). -/
def generateReadyCondition (online healthy : Bool) (currentTime : Time) : List Condition :=
  let newClusterOfflineCondition : Condition :=
    ⟨ClusterConditionReady, conditionFalse, clusterNotReachableReason, clusterNotReachableMsg, currentTime⟩
  let newClusterReadyCondition : Condition :=
    ⟨ClusterConditionReady, conditionTrue, clusterReady, clusterHealthy, currentTime⟩
  let newClusterNotReadyCondition : Condition :=
    ⟨ClusterConditionReady, conditionFalse, clusterNotReady, clusterUnhealthy, currentTime⟩
  if !online then [newClusterOfflineCondition]
  else if !healthy then [newClusterNotReadyCondition]
  else [newClusterReadyCondition]

/-- Modelled from the spec: util.IsClusterReady lives in the repository's util
package, which is not under src/. Spec §4.5: the status's condition is
"interpreted as ready/not-ready"; a status is ready when it carries a Ready
condition whose value is true, absence counting as not-ready. -/
def IsClusterReady (s : ClusterStatus) : Bool :=
  s.conditions.any fun c => c.type == ClusterConditionReady && c.status == conditionTrue

/-- setTransitionTime: when the readiness classification of the old and new
status agree and the old status has at least one condition, copy the old
first condition's transition time onto every new condition (functional
rendering of the in-place mutation). -/
def setTransitionTime (oldClusterStatus newClusterStatus : ClusterStatus) : ClusterStatus :=
  if IsClusterReady oldClusterStatus == IsClusterReady newClusterStatus then
    match oldClusterStatus.conditions with
    | [] => newClusterStatus
    | c0 :: _ =>
      { newClusterStatus with
        conditions := newClusterStatus.conditions.map
          fun c => { c with lastTransitionTime := c0.lastTransitionTime } }
  else newClusterStatus

/-- corev1.Node restricted to what the controller reads: the status
conditions and the allocatable resources. -/
structure Node where
  conditions : List Condition
  allocatable : ResourceList
deriving DecidableEq, Repr

/-- corev1.Container restricted to spec.resources.requests. -/
structure Container where
  requests : ResourceList
deriving DecidableEq, Repr

/-- corev1.Pod restricted to what the controller reads: status.phase,
status.conditions, spec.containers. -/
structure Pod where
  phase : String
  conditions : List Condition
  containers : List Container
deriving DecidableEq, Repr

/-- getReadyStatusForNode: whether some condition of type Ready has status
True (a Ready condition with another status is skipped, later conditions are
still examined; no Ready condition at all means not ready). -/
def getReadyStatusForNode (conditions : List Condition) : Bool :=
  conditions.any fun c => c.type == "Ready" && c.status == conditionTrue

/-- One step of getClusterAllocatable's inner loop: fold one (key, val)
allocatable entry into the accumulated map — add to the existing entry if
the key is present, otherwise insert it. -/
def allocInsert (acc : ResourceList) (key : String) (val : Quantity) : ResourceList :=
  match acc.lookupQ key with
  | some tmpCap => acc.map fun p => if p.1 == key then (p.1, tmpCap.add val) else p
  | none => acc ++ [(key, val)]

/-- getClusterAllocatable: per-resource-name sum of every node's allocatable
quantities. -/
def getClusterAllocatable (nodeList : List Node) : ResourceList :=
  nodeList.foldl (fun acc node => node.allocatable.foldl
    (fun acc p => allocInsert acc p.1 p.2) acc) []

/-- requestResource: transient accumulator of compute resources. -/
structure requestResource where
  MilliCPU : Int
  Memory : Int
deriving DecidableEq, Repr

/-- requestResource.addResource: accumulate a container's requests — CPU by
milli-value, memory by value, other resource names ignored (the nil-receiver
guard of the Go method is vacuous in this value semantics). -/
def requestResource.addResource (r : requestResource) (rl : ResourceList) : requestResource :=
  rl.foldl (fun r p =>
    if p.1 == "cpu" then { r with MilliCPU := r.MilliCPU + p.2.milliValue }
    else if p.1 == "memory" then { r with Memory := r.Memory + p.2.value }
    else r) r

/-- calculateResource: sum the requests of all of a pod's containers. -/
def calculateResource (pod : Pod) : requestResource :=
  pod.containers.foldl (fun res c => res.addResource c.requests) ⟨0, 0⟩

/-- addPodRequestResource. -/
def addPodRequestResource (pod : Pod) : requestResource :=
  calculateResource pod

/-- getUsedResource: accumulate the requests of pods whose phase is Running,
once per condition of type Ready with status "True" that the pod carries
(the inner loop has no break), into a decimal-SI CPU quantity in milli-units
and a binary-SI memory quantity in bytes. -/
def getUsedResource (podList : List Pod) : ResourceList :=
  let totals := podList.foldl (fun (acc : Int × Int) pod =>
    if pod.phase == "Running" then
      pod.conditions.foldl (fun (acc : Int × Int) c =>
        if c.type == "Ready" && c.status == "True" then
          let podRes := addPodRequestResource pod
          (acc.1 + podRes.MilliCPU, acc.2 + podRes.Memory)
        else acc) acc
    else acc) (0, 0)
  [("cpu", Quantity.newMilli totals.1 DecimalSI),
   ("memory", Quantity.newQuantity totals.2 BinarySI)]

/-- getNodeSummary: list nodes and pods (each list call may fail; an error
propagates and the summary is discarded), then assemble counts, allocatable
and used resources. -/
def getNodeSummary (nodeListRes : Except GoError (List Node))
    (podListRes : Except GoError (List Pod)) : Except GoError NodeSummary :=
  match nodeListRes with
  | .error e => .error e
  | .ok nodeList =>
    let totalNum := nodeList.length
    let readyNum := (nodeList.filter fun node => getReadyStatusForNode node.conditions).length
    let allocatable := getClusterAllocatable nodeList
    match podListRes with
    | .error e => .error e
    | .ok podList =>
      let usedResource := getUsedResource podList
      .ok ⟨totalNum, readyNum, allocatable, usedResource⟩

/-- getAPIEnablements' pure core: one APIEnablement per discovered resource
list (the discovery call's failure is handled at the call site). -/
structure APIResourceList where
  groupVersion : String
  apiResources : List String
deriving DecidableEq, Repr

/-- getAPIEnablements: map each discovered group-version to its resource
names. -/
def getAPIEnablements (lists : List APIResourceList) : List APIEnablement :=
  lists.map fun l => ⟨l.groupVersion, l.apiResources⟩

/-- controllerruntime.Result. RequeueAfter in ms. -/
structure RResult where
  requeue : Bool
  requeueAfter : Time
deriving DecidableEq, Repr

/-- Collaborator calls the controller can make during one reconciliation,
recorded as a trace. -/
inductive Action where
  | probe
  | getVersion
  | listAPIs
  | listNodes
  | listPods
  | updateStatus
deriving DecidableEq, Repr

/-- ClusterStatusController restricted to its configuration surface. -/
structure ClusterStatusController where
  clusterStatusUpdateFrequency : Time
deriving DecidableEq, Repr

/-- The collaborator environment of one reconciliation: what each external
call would return if made. probes i is the (readyz, healthz) pair of
outcomes of the i-th health check (index 0 is the initial check, indexes
1.. are the poll's retries); now is the instant metav1.Now() yields. -/
structure ClusterEnv where
  clusterClientResult : Except GoError Unit
  probes : Nat → ProbeOutcome × ProbeOutcome
  now : Time
  serverVersion : Except GoError String
  apiResourceLists : Except GoError (List APIResourceList)
  nodeList : Except GoError (List Node)
  podList : Except GoError (List Pod)
  statusUpdateResult : Except GoError Unit

/-- Outcome of a (partial) reconciliation: the returned Result and error,
the status stored at the API server afterwards, and the trace of
collaborator calls made. -/
structure SyncEff where
  result : RResult
  err : Option GoError
  stored : ClusterStatus
  trace : List Action
deriving DecidableEq, Repr

/-- updateStatusIfNeeded: write the candidate status only when it is not
semantically deep-equal to the stored one; on a write failure return an
immediate requeue with the error, otherwise requeue after the configured
frequency with nil error. -/
def updateStatusIfNeeded (c : ClusterStatusController) (cluster : Cluster)
    (currentClusterStatus : ClusterStatus) (env : ClusterEnv) : SyncEff :=
  if !semanticDeepEqual cluster.status currentClusterStatus then
    match env.statusUpdateResult with
    | .error e => ⟨⟨true, 0⟩, some e, cluster.status, [Action.updateStatus]⟩
    | .ok _ => ⟨⟨false, c.clusterStatusUpdateFrequency⟩, none, currentClusterStatus, [Action.updateStatus]⟩
  else ⟨⟨false, c.clusterStatusUpdateFrequency⟩, none, cluster.status, []⟩

/-- Number of times wait.Poll runs the condition before giving up: it runs
once per elapsed retry interval until the retry timeout. -/
def pollAttempts : Nat := clusterStatusRetryTimeout / clusterStatusRetryInterval

/-- The retry poll of syncClusterStatus: run the health check for probe
indexes i, i+1, ... (at most fuel of them); stop with the first online
result. Returns the (online, healthy) pair when the cluster came back
online (none on timeout) and the number of health checks made. -/
def runPoll (env : ClusterEnv) : Nat → Nat → Option (Bool × Bool) × Nat
  | 0, _ => (none, 0)
  | fuel + 1, i =>
    let r := getClusterHealthStatus (env.probes i).1 (env.probes i).2
    if r.1 then (some r, 1)
    else
      let rest := runPoll env fuel (i + 1)
      (rest.1, rest.2 + 1)

/-- The tail of syncClusterStatus once (online, healthy) is settled: fetch
the version, the API enablements and the node summary (each failure is an
immediate requeue with the error and no write), assemble the candidate
status, run the transition tracker and the conditional write. probeCalls is
how many health checks were made, for the trace. -/
def syncRest (c : ClusterStatusController) (cluster : Cluster) (env : ClusterEnv)
    (online healthy : Bool) (probeCalls : Nat) : SyncEff :=
  let ptrace := List.replicate probeCalls Action.probe
  match env.serverVersion with
  | .error e => ⟨⟨true, 0⟩, some e, cluster.status, ptrace ++ [Action.getVersion]⟩
  | .ok clusterVersion =>
    match env.apiResourceLists with
    | .error e => ⟨⟨true, 0⟩, some e, cluster.status, ptrace ++ [Action.getVersion, Action.listAPIs]⟩
    | .ok lists =>
      let nodeTrace := match env.nodeList with
        | .error _ => [Action.listNodes]
        | .ok _ => [Action.listNodes, Action.listPods]
      match getNodeSummary env.nodeList env.podList with
      | .error e =>
        ⟨⟨true, 0⟩, some e, cluster.status, ptrace ++ [Action.getVersion, Action.listAPIs] ++ nodeTrace⟩
      | .ok nodeSummary =>
        let withConds := setTransitionTime cluster.status
          { ClusterStatus.zero with conditions := generateReadyCondition online healthy env.now }
        let currentClusterStatus : ClusterStatus :=
          { withConds with
            kubernetesVersion := clusterVersion
            apiEnablements := getAPIEnablements lists
            nodeSummary := nodeSummary }
        let u := updateStatusIfNeeded c cluster currentClusterStatus env
        { u with trace := ptrace ++ [Action.getVersion, Action.listAPIs] ++ nodeTrace ++ u.trace }

/-- The candidate status the retry-timeout path persists: the zero
ClusterStatus with only the unreachable ready condition, run through the
transition tracker (lines 115-116 of the controller). -/
def unreachableCandidate (cluster : Cluster) (env : ClusterEnv) : ClusterStatus :=
  setTransitionTime cluster.status
    { ClusterStatus.zero with conditions := generateReadyCondition false false env.now }

/-- syncClusterStatus: build the cluster client, probe health, retry the
probe while offline (bounded by the retry timeout; on timeout persist an
unreachable-only status and stop), otherwise run the rest of the pipeline. -/
def syncClusterStatus (c : ClusterStatusController) (cluster : Cluster) (env : ClusterEnv) : SyncEff :=
  match env.clusterClientResult with
  | .error e => ⟨⟨true, 0⟩, some e, cluster.status, []⟩
  | .ok _ =>
    let first := getClusterHealthStatus (env.probes 0).1 (env.probes 0).2
    if !first.1 then
      let poll := runPoll env pollAttempts 1
      match poll.1 with
      | none =>
        let u := updateStatusIfNeeded c cluster (unreachableCandidate cluster env) env
        { u with trace := List.replicate (poll.2 + 1) Action.probe ++ u.trace }
      | some oh => syncRest c cluster env oh.1 oh.2 (poll.2 + 1)
    else syncRest c cluster env first.1 first.2 1

/-- Result of loading the Cluster object at the start of Reconcile. -/
inductive GetClusterResult where
  | notFound
  | otherError (e : GoError)
  | found (cluster : Cluster)

/-- Reconcile: load the cluster, apply the early-exit rules (not-found,
load error, deletion in progress, missing finalizer) in order, then run the
status-sync pipeline. Returns (Result, error, trace of collaborator calls). -/
def Reconcile (c : ClusterStatusController) (g : GetClusterResult) (env : ClusterEnv) :
    RResult × Option GoError × List Action :=
  match g with
  | .notFound => (⟨false, 0⟩, none, [])
  | .otherError e => (⟨true, 0⟩, some e, [])
  | .found cluster =>
    if !cluster.deletionTimestampIsZero then (⟨false, 0⟩, none, [])
    else if !(cluster.finalizers.contains ClusterControllerFinalizer) then (⟨true, 0⟩, none, [])
    else
      let s := syncClusterStatus c cluster env
      (s.result, s.err, s.trace)

/-- One reconciliation's effect on the persisted conditions: synthesize the
ready condition for this cycle's (online, healthy) at the cycle's time,
then apply the transition tracker against the previously persisted status
(the fields other than conditions play no role in either function). -/
def reconStep (prev : ClusterStatus) (online healthy : Bool) (t : Time) : ClusterStatus :=
  setTransitionTime prev
    { ClusterStatus.zero with conditions := generateReadyCondition online healthy t }

/-- A sequence of reconciliations, each given as ((online, healthy), time). -/
def reconSeq (init : ClusterStatus) : List ((Bool × Bool) × Time) → ClusterStatus
  | [] => init
  | s :: rest => reconSeq (reconStep init s.1.1 s.1.2 s.2) rest

/-- The transition time of the first (in the controller's model: only)
condition of a status. -/
def firstTransitionTime (s : ClusterStatus) : Option Time :=
  s.conditions.head?.map fun c => c.lastTransitionTime

/-! Spec-side definitions, written from the spec's words, to be compared
with the definitions embedded from the source. -/

/-- Spec-side classification of a single endpoint check: the (online,
healthy) outcome the unreachable / reachable-unhealthy / reachable-healthy
buckets of the final check yield in the source's mapping. -/
def clusterHealthOf (outcome : ProbeOutcome) : Bool × Bool :=
  let r := healthEndpointCheck outcome
  if r.2 then (false, false)
  else if r.1 != statusOK then (true, false)
  else (true, true)

/-- Spec-side health classification as amended: the /healthz result alone
decides when /readyz answered not-found; a transport failure, and equally a
response the REST client rejects (any status outside the 2xx success
range), yield (false, false); a successful response other than 200 yields
(true, false); a 200 response yields (true, true). -/
def clusterHealthSpec (readyz healthz : ProbeOutcome) : Bool × Bool :=
  let effective := if readyz == ProbeOutcome.httpResponse statusNotFound then healthz else readyz
  match effective with
  | .transportFailure => (false, false)
  | .httpResponse code =>
    if code == statusOK then (true, true)
    else if 200 ≤ code && code ≤ 206 then (true, false)
    else (false, false)

/-- Number of conditions of type Ready with status "True" a pod carries. -/
def readyTrueCount (p : Pod) : Nat :=
  (p.conditions.filter fun c => c.type == "Ready" && c.status == "True").length

/-- Spec-side qualification of a pod for used resources: phase Running and
some condition of type Ready with value "True". -/
def podQualifies (p : Pod) : Bool :=
  p.phase == "Running" && p.conditions.any fun c => c.type == "Ready" && c.status == "True"

/-- Spec-side used CPU: each qualifying pod contributes the sum over its
containers of requested CPU milli-units, once per pod. -/
def usedCPUOncePerPod (pods : List Pod) : Int :=
  (pods.map fun p => if podQualifies p then (calculateResource p).MilliCPU else 0).sum

/-- Spec-side used memory: each qualifying pod contributes the sum over its
containers of requested memory bytes, once per pod. -/
def usedMemOncePerPod (pods : List Pod) : Int :=
  (pods.map fun p => if podQualifies p then (calculateResource p).Memory else 0).sum

/-- Spec-side used resources as the claim states them: once-per-pod totals,
CPU decimal-scale in milli-units, memory binary-scale in bytes. -/
def usedResourceOncePerPod (pods : List Pod) : ResourceList :=
  [("cpu", Quantity.newMilli (usedCPUOncePerPod pods) DecimalSI),
   ("memory", Quantity.newQuantity (usedMemOncePerPod pods) BinarySI)]

/-- Source-shaped weighted used CPU: each Running pod contributes its
container CPU sum once per Ready/True condition it carries. -/
def weightedCPU (pods : List Pod) : Int :=
  (pods.map fun p =>
    if p.phase == "Running" then (readyTrueCount p : Int) * (calculateResource p).MilliCPU else 0).sum

/-- Source-shaped weighted used memory, analogous to weightedCPU. -/
def weightedMem (pods : List Pod) : Int :=
  (pods.map fun p =>
    if p.phase == "Running" then (readyTrueCount p : Int) * (calculateResource p).Memory else 0).sum

/-- The milli-values the entries of a resource-entry list hold for one
resource name. -/
def entriesMilliFor (entries : List (String × Quantity)) (r : String) : List Int :=
  (entries.filter fun p => p.1 == r).map fun p => p.2.milli

/-- The milli-values of all allocatable entries for one resource name
across a node list (per-resource-name summands of the allocatable total). -/
def allocEntriesFor (nodes : List Node) (r : String) : List Int :=
  entriesMilliFor ((nodes.map fun n => n.allocatable).flatten) r

/-! Concrete collaborators and inputs used by the witnesses. -/

/-- A controller configured with a 15s status-update frequency. -/
def ctrlA : ClusterStatusController := ⟨15000⟩

/-- A stored status that is ready, with transition time 7. -/
def statusReadyAt7 : ClusterStatus :=
  ⟨[⟨"Ready", "True", "ClusterReady", "ok", 7⟩], "v1.20.0", [], NodeSummary.zero⟩

/-- A live cluster carrying the controller finalizer. -/
def clusterA : Cluster := ⟨"member1", true, [ClusterControllerFinalizer], statusReadyAt7⟩

/-- A live cluster without the controller finalizer. -/
def clusterNoFin : Cluster := ⟨"member2", true, [], statusReadyAt7⟩

/-- An environment whose member cluster is healthy and all calls succeed. -/
def envA : ClusterEnv :=
  ⟨Except.ok (), fun _ => (ProbeOutcome.httpResponse 200, ProbeOutcome.httpResponse 200), 100,
    Except.ok "v1.21.0", Except.ok [], Except.ok [], Except.ok [], Except.ok ()⟩

/-- An environment whose member cluster never answers any probe. -/
def envOffline : ClusterEnv :=
  ⟨Except.ok (), fun _ => (ProbeOutcome.transportFailure, ProbeOutcome.transportFailure), 100,
    Except.ok "v1.21.0", Except.ok [], Except.ok [], Except.ok [], Except.ok ()⟩

/-- A Running pod carrying two Ready/True conditions and requesting 100m
CPU: real pods carry at most one condition per type, but nothing in the
data model forbids this shape. -/
def podDupReady : Pod :=
  ⟨"Running",
   [⟨"Ready", "True", "", "", 0⟩, ⟨"Ready", "True", "", "", 0⟩],
   [⟨[("cpu", Quantity.newMilli 100 DecimalSI)]⟩]⟩

/-- The spec's aggregation example: two Running-and-Ready pods requesting
500m/128Mi and 250m/64Mi, and one Running-but-not-Ready pod. -/
def examplePods : List Pod :=
  [⟨"Running", [⟨"Ready", "True", "", "", 0⟩],
    [⟨[("cpu", Quantity.newMilli 500 DecimalSI),
       ("memory", Quantity.newQuantity 134217728 BinarySI)]⟩]⟩,
   ⟨"Running", [⟨"Ready", "True", "", "", 0⟩],
    [⟨[("cpu", Quantity.newMilli 250 DecimalSI),
       ("memory", Quantity.newQuantity 67108864 BinarySI)]⟩]⟩,
   ⟨"Running", [⟨"Ready", "False", "", "", 0⟩],
    [⟨[("cpu", Quantity.newMilli 999 DecimalSI),
       ("memory", Quantity.newQuantity 999 BinarySI)]⟩]⟩]

/-- The spec's readiness-counting and allocatable example: node A ready with
4000m CPU allocatable, node B with no Ready condition and 2000m CPU. -/
def nodesA : List Node :=
  [⟨[⟨"Ready", "True", "", "", 0⟩], [("cpu", Quantity.newMilli 4000 DecimalSI)]⟩,
   ⟨[], [("cpu", Quantity.newMilli 2000 DecimalSI)]⟩]

/-! Sanity checks of the health-check model on concrete probe outcomes. -/

example : getClusterHealthStatus (ProbeOutcome.httpResponse 200) ProbeOutcome.transportFailure = (true, true) := by decide

example : getClusterHealthStatus (ProbeOutcome.httpResponse 500) (ProbeOutcome.httpResponse 200) = (false, false) := by decide

example : getClusterHealthStatus (ProbeOutcome.httpResponse 404) (ProbeOutcome.httpResponse 200) = (true, true) := by decide

example : getClusterHealthStatus (ProbeOutcome.httpResponse 404) (ProbeOutcome.httpResponse 500) = (false, false) := by decide

example : getClusterHealthStatus ProbeOutcome.transportFailure (ProbeOutcome.httpResponse 200) = (false, false) := by decide

/-- When /readyz answers not-found, the health status is the one the
/healthz check alone yields. -/
theorem getCHS_fallback (hz : ProbeOutcome) :
    getClusterHealthStatus (ProbeOutcome.httpResponse statusNotFound) hz = clusterHealthOf hz := by
  cases hz <;> rfl

/-- When /readyz answers anything but not-found, the health status is the
one the /readyz check alone yields, whatever /healthz would have said. -/
theorem getCHS_no_fallback (ro hz : ProbeOutcome) (h : ro ≠ ProbeOutcome.httpResponse statusNotFound) :
    getClusterHealthStatus ro hz = clusterHealthOf ro := by
  cases ro with
  | transportFailure => rfl
  | httpResponse c =>
    have hc : (c == statusNotFound) = false := by
      simp only [statusNotFound] at h ⊢
      simp only [beq_eq_false_iff_ne, ne_eq]
      intro hcc
      exact h (by rw [hcc])
    simp only [getClusterHealthStatus, clusterHealthOf, healthEndpointCheck, hc, Bool.and_false]
    simp

/-- Explicit form of the single-endpoint classification. -/
theorem clusterHealthOf_eq (c : Nat) :
    clusterHealthOf (ProbeOutcome.httpResponse c) =
      if c == statusOK then (true, true)
      else if 200 ≤ c && c ≤ 206 then (true, false)
      else (false, false) := by
  simp only [clusterHealthOf, healthEndpointCheck, statusOK]
  by_cases h200 : 200 ≤ c <;> by_cases h206 : c ≤ 206 <;> by_cases hOK : c = 200 <;>
    simp [h200, h206, hOK]

/-- C3 counterexample: /readyz is reachable and answers 500 — a non-success
status — yet getClusterHealthStatus reports (online=false, healthy=false),
not (online=true, healthy=false) as the claim states: the REST client
surfaces the 500 response as a non-nil error, and the error branch wins. -/
theorem C3_counterexample :
    getClusterHealthStatus (ProbeOutcome.httpResponse 500) (ProbeOutcome.httpResponse 500) = (false, false) ∧
    getClusterHealthStatus (ProbeOutcome.httpResponse 500) (ProbeOutcome.httpResponse 500) ≠ (true, false) := by
  decide

/-- C3 (amended): a network/transport failure yields (false, false); a
reachable endpoint whose response the REST client rejects (status outside
the 2xx success range, after the not-found fallback) also yields
(false, false); a reachable endpoint answering a successful non-200 status
yields (true, false); a 200 answer yields (true, true). -/
theorem C3_health_mapping_amended :
    ∀ readyz healthz : ProbeOutcome,
      getClusterHealthStatus readyz healthz = clusterHealthSpec readyz healthz := by
  intro ro hz
  by_cases h : ro = ProbeOutcome.httpResponse statusNotFound
  · subst h
    rw [getCHS_fallback]
    cases hz with
    | transportFailure => rfl
    | httpResponse c =>
      rw [clusterHealthOf_eq]
      simp [clusterHealthSpec]
  · rw [getCHS_no_fallback ro hz h]
    cases ro with
    | transportFailure => rfl
    | httpResponse c =>
      have hc : (ProbeOutcome.httpResponse c == ProbeOutcome.httpResponse statusNotFound) = false := by
        simpa using h
      rw [clusterHealthOf_eq]
      simp [clusterHealthSpec, hc]

/-- C4: if /readyz answers not-found, the /healthz check alone determines
the (online, healthy) outcome; if /readyz answers anything else, the
/healthz endpoint is never consulted (the outcome is the same whatever
/healthz would answer). -/
theorem C4_fallback_correctness :
    (∀ hz : ProbeOutcome,
        getClusterHealthStatus (ProbeOutcome.httpResponse statusNotFound) hz = clusterHealthOf hz) ∧
    (∀ ro hz hz2 : ProbeOutcome, ro ≠ ProbeOutcome.httpResponse statusNotFound →
        getClusterHealthStatus ro hz = getClusterHealthStatus ro hz2) := by
  constructor
  · exact getCHS_fallback
  · intro ro hz hz2 h
    rw [getCHS_no_fallback ro hz h, getCHS_no_fallback ro hz2 h]

/-- C4 witness: at a concrete non-404 primary outcome the result does not
depend on the secondary outcome. -/
theorem C4_fallback_correctness_witness :
    getClusterHealthStatus (ProbeOutcome.httpResponse 200) (ProbeOutcome.httpResponse 500)
      = getClusterHealthStatus (ProbeOutcome.httpResponse 200) ProbeOutcome.transportFailure :=
  C4_fallback_correctness.2 (ProbeOutcome.httpResponse 200) (ProbeOutcome.httpResponse 500)
    ProbeOutcome.transportFailure (by decide)

/-- generateReadyCondition always yields exactly one condition. -/
theorem gRC_length (o h : Bool) (t : Time) : (generateReadyCondition o h t).length = 1 := by
  cases o <;> cases h <;> rfl

/-- The transition tracker neither adds nor removes conditions. -/
theorem setTransitionTime_conditions_length (old nw : ClusterStatus) :
    ((setTransitionTime old nw).conditions).length = nw.conditions.length := by
  unfold setTransitionTime
  split
  · cases old.conditions with
    | nil => rfl
    | cons c0 cs => simp
  · rfl

/-- The transition tracker only touches the conditions field. -/
theorem setTransitionTime_fields (old nw : ClusterStatus) :
    (setTransitionTime old nw).kubernetesVersion = nw.kubernetesVersion ∧
    (setTransitionTime old nw).apiEnablements = nw.apiEnablements ∧
    (setTransitionTime old nw).nodeSummary = nw.nodeSummary := by
  unfold setTransitionTime
  split
  · cases old.conditions with
    | nil => exact ⟨rfl, rfl, rfl⟩
    | cons c0 cs => exact ⟨rfl, rfl, rfl⟩
  · exact ⟨rfl, rfl, rfl⟩

/-- The readiness a synthesized condition list encodes is online && healthy. -/
theorem isClusterReady_gRC (o h : Bool) (t : Time) :
    IsClusterReady { ClusterStatus.zero with conditions := generateReadyCondition o h t } = (o && h) := by
  cases o <;> cases h <;> rfl

/-- C9: generateReadyCondition returns exactly one condition of type Ready,
picked from three mutually exclusive templates — offline ⇒
ClusterNotReachable/false, online-unhealthy ⇒ ClusterNotReady/false,
online-healthy ⇒ ClusterReady/true — and the transition tracker keeps the
synthesized status at exactly one condition entry. -/
theorem C9_single_ready_condition :
    ∀ (online healthy : Bool) (t : Time),
      generateReadyCondition online healthy t =
        [if !online then
           ⟨ClusterConditionReady, conditionFalse, clusterNotReachableReason, clusterNotReachableMsg, t⟩
         else if !healthy then
           ⟨ClusterConditionReady, conditionFalse, clusterNotReady, clusterUnhealthy, t⟩
         else ⟨ClusterConditionReady, conditionTrue, clusterReady, clusterHealthy, t⟩] ∧
      (generateReadyCondition online healthy t).length = 1 ∧
      (∀ c ∈ generateReadyCondition online healthy t, c.type = ClusterConditionReady) ∧
      ∀ old : ClusterStatus,
        ((setTransitionTime old
          { ClusterStatus.zero with conditions := generateReadyCondition online healthy t }).conditions).length = 1 := by
  intro o h t
  refine ⟨?_, gRC_length o h t, ?_, ?_⟩
  · cases o <;> cases h <;> rfl
  · intro c hc
    cases o <;> cases h <;> simp [generateReadyCondition] at hc <;> simp [hc]
  · intro old
    rw [setTransitionTime_conditions_length]
    exact gRC_length o h t

/-- Re-stamping the synthesized templates is the same as synthesizing them
at the other time. -/
theorem gRC_retime (o h : Bool) (t t0 : Time) :
    (generateReadyCondition o h t).map (fun c => { c with lastTransitionTime := t0 })
      = generateReadyCondition o h t0 := by
  cases o <;> cases h <;> rfl

/-- The transition time of a freshly synthesized status is the stamp time. -/
theorem firstTT_gRC (o h : Bool) (t : Time) :
    firstTransitionTime { ClusterStatus.zero with conditions := generateReadyCondition o h t } = some t := by
  cases o <;> cases h <;> rfl

/-- One reconciliation whose classification matches the stored one replaces
the conditions by the new templates re-stamped with the stored transition
time. -/
theorem reconStep_same (old : ClusterStatus) (o h : Bool) (t : Time) (c0 : Condition)
    (rest : List Condition) (hc : old.conditions = c0 :: rest)
    (hcl : IsClusterReady old = (o && h)) :
    reconStep old o h t
      = { ClusterStatus.zero with conditions := generateReadyCondition o h c0.lastTransitionTime } := by
  unfold reconStep setTransitionTime
  rw [isClusterReady_gRC, hcl, hc]
  simp [gRC_retime]

/-- One reconciliation whose classification differs from the stored one
keeps the freshly stamped templates. -/
theorem reconStep_diff (old : ClusterStatus) (o h : Bool) (t : Time)
    (hcl : IsClusterReady old ≠ (o && h)) :
    reconStep old o h t
      = { ClusterStatus.zero with conditions := generateReadyCondition o h t } := by
  unfold reconStep setTransitionTime
  rw [isClusterReady_gRC]
  have hb : (IsClusterReady old == (o && h)) = false := by
    simp [hcl]
  rw [hb]
  simp

/-- Over any run of reconciliations whose classification stays b, a status
that starts with classification b and transition time t0 keeps transition
time t0. -/
theorem reconSeq_const (b : Bool) (t0 : Time) (steps : List ((Bool × Bool) × Time)) :
    ∀ old : ClusterStatus, old.conditions ≠ [] → firstTransitionTime old = some t0 →
      IsClusterReady old = b → (∀ s ∈ steps, (s.1.1 && s.1.2) = b) →
      firstTransitionTime (reconSeq old steps) = some t0 := by
  induction steps with
  | nil =>
    intro old _ ht _ _
    simpa [reconSeq] using ht
  | cons s steps ih =>
    intro old hne ht hb hs
    obtain ⟨⟨o, h⟩, t⟩ := s
    cases hc : old.conditions with
    | nil => exact absurd hc hne
    | cons c0 rest =>
      have ht0 : c0.lastTransitionTime = t0 := by
        rw [firstTransitionTime, hc] at ht
        simpa using ht
      have hcl : IsClusterReady old = (o && h) := by
        rw [hb]
        exact (hs _ (List.mem_cons_self _ _)).symm
      show firstTransitionTime (reconSeq (reconStep old o h t) steps) = some t0
      rw [reconStep_same old o h t c0 rest hc hcl]
      apply ih
      · show generateReadyCondition o h c0.lastTransitionTime ≠ []
        have hl := gRC_length o h c0.lastTransitionTime
        intro hnil
        rw [hnil] at hl
        exact absurd hl (by decide)
      · rw [firstTT_gRC, ht0]
      · rw [isClusterReady_gRC, ← hcl, hb]
      · intro s hs'
        exact hs s (List.mem_cons_of_mem _ hs')

/-- C1: when the readiness classifications of the stored and the freshly
synthesized status agree and the stored status has a condition, the new
condition takes the stored condition's transition time; when they differ,
the new condition keeps its fresh stamp. Consequently a run of
reconciliations with unchanged classification never moves the persisted
transition time, and the first reconciliation after a flip moves it to that
reconciliation's stamp exactly once (later unchanged steps keep it). -/
theorem C1_transition_time_preservation :
    (∀ (old : ClusterStatus) (o h : Bool) (t : Time) (c0 : Condition) (rest : List Condition),
        old.conditions = c0 :: rest →
        IsClusterReady old
          = IsClusterReady { ClusterStatus.zero with conditions := generateReadyCondition o h t } →
        firstTransitionTime (reconStep old o h t) = some c0.lastTransitionTime) ∧
    (∀ (old : ClusterStatus) (o h : Bool) (t : Time),
        IsClusterReady old
          ≠ IsClusterReady { ClusterStatus.zero with conditions := generateReadyCondition o h t } →
        firstTransitionTime (reconStep old o h t) = some t) ∧
    (∀ (old : ClusterStatus) (steps : List ((Bool × Bool) × Time)),
        old.conditions ≠ [] →
        (∀ s ∈ steps, (s.1.1 && s.1.2) = IsClusterReady old) →
        firstTransitionTime (reconSeq old steps) = firstTransitionTime old) ∧
    (∀ (old : ClusterStatus) (o h : Bool) (t : Time) (rest : List ((Bool × Bool) × Time)),
        IsClusterReady old ≠ (o && h) →
        (∀ s ∈ rest, (s.1.1 && s.1.2) = (o && h)) →
        firstTransitionTime (reconSeq old (((o, h), t) :: rest)) = some t) := by
  refine ⟨?_, ?_, ?_, ?_⟩
  · intro old o h t c0 rest hc hcl
    rw [isClusterReady_gRC] at hcl
    rw [reconStep_same old o h t c0 rest hc hcl, firstTT_gRC]
  · intro old o h t hcl
    rw [isClusterReady_gRC] at hcl
    rw [reconStep_diff old o h t hcl, firstTT_gRC]
  · intro old steps hne hs
    cases hc : old.conditions with
    | nil => exact absurd hc hne
    | cons c0 rest =>
      rw [show firstTransitionTime old = some c0.lastTransitionTime by
        rw [firstTransitionTime, hc]; rfl]
      exact reconSeq_const (IsClusterReady old) c0.lastTransitionTime steps old hne
        (by rw [firstTransitionTime, hc]; rfl) rfl hs
  · intro old o h t rest hcl hs
    show firstTransitionTime (reconSeq (reconStep old o h t) rest) = some t
    rw [reconStep_diff old o h t hcl]
    apply reconSeq_const (o && h) t rest
    · show generateReadyCondition o h t ≠ []
      have hl := gRC_length o h t
      intro hnil
      rw [hnil] at hl
      exact absurd hl (by decide)
    · exact firstTT_gRC o h t
    · exact isClusterReady_gRC o h t
    · exact hs

/-- C1 witness: a ready cluster stamped at 7 keeps time 7 over agreeing
reconciliations; a flip at time 50 moves the time to 50 exactly once, also
through a later not-ready step. -/
theorem C1_transition_time_preservation_witness :
    firstTransitionTime (reconStep statusReadyAt7 true true 50) = some 7 ∧
    firstTransitionTime (reconStep statusReadyAt7 false false 50) = some 50 ∧
    firstTransitionTime (reconSeq statusReadyAt7 [((true, true), 50), ((true, true), 60)])
      = firstTransitionTime statusReadyAt7 ∧
    firstTransitionTime (reconSeq statusReadyAt7 [((false, false), 50), ((true, false), 60)])
      = some 50 :=
  ⟨C1_transition_time_preservation.1 statusReadyAt7 true true 50
      ⟨"Ready", "True", "ClusterReady", "ok", 7⟩ [] rfl (by decide),
   C1_transition_time_preservation.2.1 statusReadyAt7 false false 50 (by decide),
   C1_transition_time_preservation.2.2.1 statusReadyAt7
      [((true, true), 50), ((true, true), 60)] (by decide) (by decide),
   C1_transition_time_preservation.2.2.2 statusReadyAt7 false false 50
      [((true, false), 60)] (by decide) (by decide)⟩

/-- C2: when the candidate status is semantically deep-equal to the stored
one, updateStatusIfNeeded makes no update call, returns a
requeue-after-frequency Result with nil error, and leaves the stored
status untouched — so a second converged call makes no write either. -/
theorem C2_no_write_when_converged :
    ∀ (c : ClusterStatusController) (cluster : Cluster) (cur : ClusterStatus) (env : ClusterEnv),
      semanticDeepEqual cluster.status cur = true →
      (updateStatusIfNeeded c cluster cur env).trace = [] ∧
      (updateStatusIfNeeded c cluster cur env).result = ⟨false, c.clusterStatusUpdateFrequency⟩ ∧
      (updateStatusIfNeeded c cluster cur env).err = none ∧
      (updateStatusIfNeeded c cluster cur env).stored = cluster.status ∧
      (updateStatusIfNeeded c { cluster with status := (updateStatusIfNeeded c cluster cur env).stored }
        cur env).trace = [] := by
  intro c cluster cur env h
  have hu : updateStatusIfNeeded c cluster cur env
      = ⟨⟨false, c.clusterStatusUpdateFrequency⟩, none, cluster.status, []⟩ := by
    unfold updateStatusIfNeeded
    rw [h]
    rfl
  rw [hu]
  refine ⟨rfl, rfl, rfl, rfl, ?_⟩
  unfold updateStatusIfNeeded
  rw [show ({ cluster with status := cluster.status } : Cluster).status = cluster.status from rfl, h]
  rfl

/-- C2 witness: a converged cluster at a concrete status and environment. -/
theorem C2_no_write_when_converged_witness :
    (updateStatusIfNeeded ctrlA clusterA statusReadyAt7 envA).trace = [] ∧
    (updateStatusIfNeeded ctrlA clusterA statusReadyAt7 envA).result = ⟨false, 15000⟩ ∧
    (updateStatusIfNeeded ctrlA clusterA statusReadyAt7 envA).err = none ∧
    (updateStatusIfNeeded ctrlA clusterA statusReadyAt7 envA).stored = clusterA.status ∧
    (updateStatusIfNeeded ctrlA
      { clusterA with status := (updateStatusIfNeeded ctrlA clusterA statusReadyAt7 envA).stored }
      statusReadyAt7 envA).trace = [] :=
  C2_no_write_when_converged ctrlA clusterA statusReadyAt7 envA (by decide)

/-- C6: Reconcile's early exits in order — not-found is a silent success,
any other load error propagates with an immediate requeue, deletion in
progress is a silent success, a missing finalizer requeues without error
and without any collaborator call, and only otherwise does the status-sync
pipeline run. -/
theorem C6_reconcile_early_exits :
    ∀ (c : ClusterStatusController) (env : ClusterEnv),
      Reconcile c GetClusterResult.notFound env = (⟨false, 0⟩, none, []) ∧
      (∀ e : GoError, Reconcile c (GetClusterResult.otherError e) env = (⟨true, 0⟩, some e, [])) ∧
      (∀ cluster : Cluster, cluster.deletionTimestampIsZero = false →
        Reconcile c (GetClusterResult.found cluster) env = (⟨false, 0⟩, none, [])) ∧
      (∀ cluster : Cluster, cluster.deletionTimestampIsZero = true →
        cluster.finalizers.contains ClusterControllerFinalizer = false →
        Reconcile c (GetClusterResult.found cluster) env = (⟨true, 0⟩, none, [])) ∧
      (∀ cluster : Cluster, cluster.deletionTimestampIsZero = true →
        cluster.finalizers.contains ClusterControllerFinalizer = true →
        Reconcile c (GetClusterResult.found cluster) env =
          ((syncClusterStatus c cluster env).result, (syncClusterStatus c cluster env).err,
            (syncClusterStatus c cluster env).trace)) := by
  intro c env
  refine ⟨rfl, fun e => rfl, ?_, ?_, ?_⟩
  · intro cluster hd
    simp [Reconcile, hd]
  · intro cluster hd hf
    simp only [Reconcile]
    rw [hd, hf]
    rfl
  · intro cluster hd hf
    simp only [Reconcile]
    rw [hd, hf]
    rfl

/-- C6 witness: a found cluster without the finalizer requeues without
error and without any collaborator call. -/
theorem C6_reconcile_early_exits_witness :
    Reconcile ctrlA (GetClusterResult.found clusterNoFin) envA = (⟨true, 0⟩, none, []) :=
  (C6_reconcile_early_exits ctrlA envA).2.2.2.1 clusterNoFin rfl (by decide)

/-- When every probed attempt reports offline, the poll times out after
exactly its fuel many health checks. -/
theorem runPoll_all_offline (env : ClusterEnv) :
    ∀ fuel i : Nat,
      (∀ j, i ≤ j → j < i + fuel →
        (getClusterHealthStatus (env.probes j).1 (env.probes j).2).1 = false) →
      runPoll env fuel i = (none, fuel) := by
  intro fuel
  induction fuel with
  | zero => intro i _; rfl
  | succ n ih =>
    intro i hoff
    unfold runPoll
    simp only [hoff i (le_refl i) (by omega), Bool.false_eq_true, if_false]
    rw [ih (i + 1) (fun j hj1 hj2 => hoff j (by omega) (by omega))]

/-- The conditional write makes either no call or exactly one update call. -/
theorem updateStatusIfNeeded_trace (c : ClusterStatusController) (cluster : Cluster)
    (cur : ClusterStatus) (env : ClusterEnv) :
    (updateStatusIfNeeded c cluster cur env).trace = [] ∨
    (updateStatusIfNeeded c cluster cur env).trace = [Action.updateStatus] := by
  unfold updateStatusIfNeeded
  split
  · cases env.statusUpdateResult with
    | error e => right; rfl
    | ok u => right; rfl
  · left; rfl

/-- On an always-offline environment syncClusterStatus takes the
retry-timeout short circuit: its outcome is the conditional write of the
unreachable candidate, prefixed by the probe trace. -/
theorem syncClusterStatus_offline (c : ClusterStatusController) (cluster : Cluster) (env : ClusterEnv)
    (hcc : env.clusterClientResult = Except.ok ())
    (hoff : ∀ i, i ≤ pollAttempts →
      (getClusterHealthStatus (env.probes i).1 (env.probes i).2).1 = false) :
    syncClusterStatus c cluster env =
      { updateStatusIfNeeded c cluster (unreachableCandidate cluster env) env with
        trace := List.replicate (pollAttempts + 1) Action.probe
          ++ (updateStatusIfNeeded c cluster (unreachableCandidate cluster env) env).trace } := by
  unfold syncClusterStatus
  rw [hcc]
  simp only [hoff 0 (by omega), Bool.not_false, if_true,
    runPoll_all_offline env pollAttempts 1 (fun j hj1 hj2 => hoff j (by omega))]

/-- C5: when the cluster is offline at the initial check and at every retry,
syncClusterStatus terminates the cycle on the short circuit: after
1 + timeout/interval health checks it runs the conditional write on the
candidate holding only the unreachable condition, and never calls version
retrieval, API discovery, node listing or pod listing; the retry budget is
the 2s timeout at 500ms intervals. -/
theorem C5_bounded_retry_short_circuit :
    ∀ (c : ClusterStatusController) (cluster : Cluster) (env : ClusterEnv),
      env.clusterClientResult = Except.ok () →
      (∀ i, i ≤ pollAttempts →
        (getClusterHealthStatus (env.probes i).1 (env.probes i).2).1 = false) →
      syncClusterStatus c cluster env =
        { updateStatusIfNeeded c cluster (unreachableCandidate cluster env) env with
          trace := List.replicate (pollAttempts + 1) Action.probe
            ++ (updateStatusIfNeeded c cluster (unreachableCandidate cluster env) env).trace } ∧
      Action.getVersion ∉ (syncClusterStatus c cluster env).trace ∧
      Action.listAPIs ∉ (syncClusterStatus c cluster env).trace ∧
      Action.listNodes ∉ (syncClusterStatus c cluster env).trace ∧
      Action.listPods ∉ (syncClusterStatus c cluster env).trace ∧
      clusterStatusRetryInterval * pollAttempts = clusterStatusRetryTimeout := by
  intro c cluster env hcc hoff
  have hs := syncClusterStatus_offline c cluster env hcc hoff
  refine ⟨hs, ?_, ?_, ?_, ?_, by decide⟩ <;>
  · rw [hs]
    rcases updateStatusIfNeeded_trace c cluster (unreachableCandidate cluster env) env with h | h <;>
      simp [h, List.mem_replicate]

/-- C5 witness: a concrete always-offline environment. -/
theorem C5_bounded_retry_short_circuit_witness :
    syncClusterStatus ctrlA clusterA envOffline =
      { updateStatusIfNeeded ctrlA clusterA (unreachableCandidate clusterA envOffline) envOffline with
        trace := List.replicate (pollAttempts + 1) Action.probe
          ++ (updateStatusIfNeeded ctrlA clusterA
                (unreachableCandidate clusterA envOffline) envOffline).trace } ∧
    Action.getVersion ∉ (syncClusterStatus ctrlA clusterA envOffline).trace ∧
    Action.listAPIs ∉ (syncClusterStatus ctrlA clusterA envOffline).trace ∧
    Action.listNodes ∉ (syncClusterStatus ctrlA clusterA envOffline).trace ∧
    Action.listPods ∉ (syncClusterStatus ctrlA clusterA envOffline).trace ∧
    clusterStatusRetryInterval * pollAttempts = clusterStatusRetryTimeout :=
  C5_bounded_retry_short_circuit ctrlA clusterA envOffline rfl (fun _ _ => rfl)

/-- C10: the candidate persisted on the retry-timeout path carries only the
Ready condition — its version is the empty string, its API enablements and
node summary are zero values — and when the stored status had a non-empty
version, the write happens and replaces the stored status with exactly
this stripped candidate (erasing version, enablements and node summary). -/
theorem C10_unreachable_write_erases :
    ∀ (c : ClusterStatusController) (cluster : Cluster) (env : ClusterEnv),
      env.clusterClientResult = Except.ok () →
      (∀ i, i ≤ pollAttempts →
        (getClusterHealthStatus (env.probes i).1 (env.probes i).2).1 = false) →
      env.statusUpdateResult = Except.ok () →
      (unreachableCandidate cluster env).kubernetesVersion = "" ∧
      (unreachableCandidate cluster env).apiEnablements = [] ∧
      (unreachableCandidate cluster env).nodeSummary = NodeSummary.zero ∧
      ((unreachableCandidate cluster env).conditions).length = 1 ∧
      (cluster.status.kubernetesVersion ≠ "" →
        (syncClusterStatus c cluster env).stored = unreachableCandidate cluster env) := by
  intro c cluster env hcc hoff hupd
  have hf := setTransitionTime_fields cluster.status
    { ClusterStatus.zero with conditions := generateReadyCondition false false env.now }
  refine ⟨hf.1, hf.2.1, hf.2.2, ?_, ?_⟩
  · show ((setTransitionTime cluster.status
      { ClusterStatus.zero with conditions := generateReadyCondition false false env.now }).conditions).length = 1
    rw [setTransitionTime_conditions_length]
    exact gRC_length false false env.now
  · intro hver
    have hsd : semanticDeepEqual cluster.status (unreachableCandidate cluster env) = false := by
      by_cases h : semanticDeepEqual cluster.status (unreachableCandidate cluster env) = true
      · exfalso
        unfold semanticDeepEqual at h
        simp only [Bool.and_eq_true, beq_iff_eq] at h
        exact hver (h.1.1.2.trans hf.1)
      · simpa using h
    have hs := syncClusterStatus_offline c cluster env hcc hoff
    rw [hs]
    show (updateStatusIfNeeded c cluster (unreachableCandidate cluster env) env).stored
      = unreachableCandidate cluster env
    unfold updateStatusIfNeeded
    rw [hsd, hupd]
    rfl

/-- C10 witness: a concrete cluster whose stored status carries a version
string loses it on the unreachable write. -/
theorem C10_unreachable_write_erases_witness :
    (unreachableCandidate clusterA envOffline).kubernetesVersion = "" ∧
    (unreachableCandidate clusterA envOffline).apiEnablements = [] ∧
    (unreachableCandidate clusterA envOffline).nodeSummary = NodeSummary.zero ∧
    ((unreachableCandidate clusterA envOffline).conditions).length = 1 ∧
    (syncClusterStatus ctrlA clusterA envOffline).stored = unreachableCandidate clusterA envOffline :=
  have h := C10_unreachable_write_erases ctrlA clusterA envOffline rfl (fun _ _ => rfl) rfl
  ⟨h.1, h.2.1, h.2.2.1, h.2.2.2.1, h.2.2.2.2 (by decide)⟩

/-- Replacing every entry of one key by a fixed pair (key kept) rewrites
the lookup at that key and leaves every other lookup alone. -/
theorem lookupQ_map_replace (k : String) (w : Quantity) (r : String) :
    ∀ acc : ResourceList,
      ResourceList.lookupQ (acc.map fun p => if p.1 == k then (p.1, w) else p) r
        = if k == r then (acc.lookupQ r).map (fun _ => w) else acc.lookupQ r := by
  intro acc
  induction acc with
  | nil => cases hkr : (k == r) <;> simp [ResourceList.lookupQ, hkr]
  | cons p ps ih =>
    by_cases hpk : (p.1 == k) = true
    · have hpk2 : p.1 = k := by simpa using hpk
      by_cases hpr : (p.1 == r) = true
      · have hpr2 : p.1 = r := by simpa using hpr
        have hkr : (k == r) = true := by
          rw [beq_iff_eq]
          exact hpk2.symm.trans hpr2
        simp [ResourceList.lookupQ, hpk, hpr, hkr]
      · have hkr : (k == r) = false := by
          rw [beq_eq_false_iff_ne]
          intro hkr2
          apply hpr
          rw [beq_iff_eq, hpk2]
          exact hkr2
        simp only [List.map_cons, hpk, if_true, ResourceList.lookupQ] at ih ⊢
        rw [ih, hkr]
        simp [hpr, hkr]
    · by_cases hpr : (p.1 == r) = true
      · have hpr2 : p.1 = r := by simpa using hpr
        have hkr : (k == r) = false := by
          rw [beq_eq_false_iff_ne]
          intro hkr2
          exact hpk (by rw [beq_iff_eq, hpr2, hkr2])
        simp [ResourceList.lookupQ, hpk, hpr, hkr]
      · simp only [List.map_cons, hpk, if_false, Bool.false_eq_true, ResourceList.lookupQ] at ih ⊢
        rw [ih]
        cases hkr : (k == r) <;> simp [hpr, hkr]

/-- Lookup distributes over append: the left list wins when it has the key. -/
theorem lookupQ_append (a b : ResourceList) (r : String) :
    (a ++ b : ResourceList).lookupQ r
      = match a.lookupQ r with
        | some q => some q
        | none => b.lookupQ r := by
  induction a with
  | nil => simp [ResourceList.lookupQ]
  | cons p ps ih =>
    by_cases hpr : (p.1 == r) = true <;>
      simp [ResourceList.lookupQ, hpr, ih]

/-- Lookup after one allocInsert: the inserted key's milli-value grows by
the inserted value (from 0 when absent); other keys are untouched. -/
theorem lookupQ_allocInsert (acc : ResourceList) (k : String) (v : Quantity) (r : String) :
    ((allocInsert acc k v).lookupQ r).map Quantity.milli
      = if k == r then
          some (((acc.lookupQ r).map Quantity.milli).getD 0 + v.milli)
        else (acc.lookupQ r).map Quantity.milli := by
  unfold allocInsert
  cases hlk : acc.lookupQ k with
  | some tmp =>
    rw [lookupQ_map_replace]
    by_cases hkr : (k == r) = true
    · have hkr2 : k = r := by simpa using hkr
      subst hkr2
      rw [hlk]
      simp [hkr, Quantity.add]
    · have hkr2 : (k == r) = false := by simpa using hkr
      simp [hkr2]
  | none =>
    rw [lookupQ_append]
    by_cases hkr : (k == r) = true
    · have hkr2 : k = r := by simpa using hkr
      subst hkr2
      rw [hlk]
      simp [ResourceList.lookupQ, hkr]
    · have hkr2 : (k == r) = false := by simpa using hkr
      cases hla : acc.lookupQ r with
      | some q => simp [hla, hkr2]
      | none => simp [hla, hkr2, ResourceList.lookupQ]

/-- Folding allocInsert over an entry list adds, at each key, the sum of
that key's entry values to whatever the accumulator held (presence at a key
means: present before, or some entry carries the key). -/
theorem lookupQ_foldl_allocInsert (r : String) :
    ∀ (entries : List (String × Quantity)) (acc : ResourceList),
      ((entries.foldl (fun acc p => allocInsert acc p.1 p.2) acc).lookupQ r).map Quantity.milli
        = match (acc.lookupQ r).map Quantity.milli with
          | some m => some (m + (entriesMilliFor entries r).sum)
          | none =>
            if entriesMilliFor entries r = [] then none
            else some (entriesMilliFor entries r).sum := by
  intro entries
  induction entries with
  | nil =>
    intro acc
    cases hm : (acc.lookupQ r).map Quantity.milli <;> simp [entriesMilliFor, hm]
  | cons e rest ih =>
    intro acc
    rw [List.foldl_cons, ih (allocInsert acc e.1 e.2), lookupQ_allocInsert]
    by_cases hk : (e.1 == r) = true
    · have hfil : entriesMilliFor (e :: rest) r = e.2.milli :: entriesMilliFor rest r := by
        unfold entriesMilliFor
        rw [List.filter_cons_of_pos (by simpa using hk), List.map_cons]
      rw [hfil, if_pos hk]
      cases hm : (acc.lookupQ r).map Quantity.milli with
      | some m => simp [Int.add_assoc]
      | none => simp
    · have hfil : entriesMilliFor (e :: rest) r = entriesMilliFor rest r := by
        unfold entriesMilliFor
        rw [List.filter_cons_of_neg (by simpa using hk)]
      rw [hfil, if_neg hk]

/-- The nested node/entry loops of getClusterAllocatable are one fold over
the concatenation of all nodes' allocatable entries. -/
theorem getClusterAllocatable_eq_flatten (nodes : List Node) :
    getClusterAllocatable nodes
      = ((nodes.map fun n => n.allocatable).flatten).foldl
          (fun acc p => allocInsert acc p.1 p.2) [] := by
  unfold getClusterAllocatable
  rw [List.foldl_flatten, List.foldl_map]

/-- C8: for every node list (and pod list), the summary counts all nodes,
counts as ready exactly the nodes carrying a Ready condition with value
true (none counting as not-ready), and sums allocatable quantities
per resource name: a name absent from every node is absent from the total,
and otherwise the total's value is the sum of all nodes' entries for it. -/
theorem C8_node_summary :
    ∀ (nodes : List Node) (pods : List Pod),
      getNodeSummary (Except.ok nodes) (Except.ok pods)
        = Except.ok
            ⟨nodes.length,
             (nodes.filter fun n =>
               n.conditions.any fun c => c.type == "Ready" && c.status == conditionTrue).length,
             getClusterAllocatable nodes,
             getUsedResource pods⟩ ∧
      (∀ r : String,
        ((getClusterAllocatable nodes).lookupQ r).map Quantity.milli
          = if allocEntriesFor nodes r = [] then none
            else some (allocEntriesFor nodes r).sum) ∧
      (∀ n ∈ nodes, getReadyStatusForNode n.conditions
          = n.conditions.any fun c => c.type == "Ready" && c.status == conditionTrue) := by
  intro nodes pods
  refine ⟨rfl, ?_, fun n _ => rfl⟩
  intro r
  rw [getClusterAllocatable_eq_flatten,
    lookupQ_foldl_allocInsert r ((nodes.map fun n => n.allocatable).flatten) []]
  rfl

/-- C8 witness: the spec's example — node A ready with 4000m CPU, node B
without Ready condition and 2000m CPU: 2 nodes, 1 ready, 6000m total. -/
theorem C8_node_summary_witness :
    getNodeSummary (Except.ok nodesA) (Except.ok [])
      = Except.ok ⟨2, 1, getClusterAllocatable nodesA, getUsedResource []⟩ ∧
    ((getClusterAllocatable nodesA).lookupQ "cpu").map Quantity.milli = some 6000 ∧
    getReadyStatusForNode (⟨[], [("cpu", Quantity.newMilli 2000 DecimalSI)]⟩ : Node).conditions
      = false :=
  have h := C8_node_summary nodesA []
  ⟨h.1, by rw [h.2.1 "cpu"]; decide,
   by rw [h.2.2 ⟨[], [("cpu", Quantity.newMilli 2000 DecimalSI)]⟩ (by decide)]; decide⟩

/-- The inner condition loop of getUsedResource adds the pod's request
totals once per Ready/True condition. -/
theorem pod_conds_foldl (p : Pod) :
    ∀ (conds : List Condition) (acc : Int × Int),
      conds.foldl
        (fun (acc : Int × Int) c =>
          if c.type == "Ready" && c.status == "True" then
            let podRes := addPodRequestResource p
            (acc.1 + podRes.MilliCPU, acc.2 + podRes.Memory)
          else acc) acc
      = (acc.1 + ((conds.filter fun c => c.type == "Ready" && c.status == "True").length : Int)
            * (addPodRequestResource p).MilliCPU,
         acc.2 + ((conds.filter fun c => c.type == "Ready" && c.status == "True").length : Int)
            * (addPodRequestResource p).Memory) := by
  intro conds
  induction conds with
  | nil => intro acc; simp
  | cons c cs ih =>
    intro acc
    rw [List.foldl_cons]
    by_cases hc : (c.type == "Ready" && c.status == "True") = true
    · rw [if_pos hc, ih, List.filter_cons_of_pos (by simpa using hc)]
      simp only [List.length_cons, Prod.mk.injEq]
      push_cast
      constructor <;> ring
    · rw [if_neg hc, ih, List.filter_cons_of_neg (by simpa using hc)]

/-- The pod loop of getUsedResource computes the weighted totals. -/
theorem usedFold_weighted :
    ∀ (pods : List Pod) (acc : Int × Int),
      pods.foldl
        (fun (acc : Int × Int) pod =>
          if pod.phase == "Running" then
            pod.conditions.foldl
              (fun (acc : Int × Int) c =>
                if c.type == "Ready" && c.status == "True" then
                  let podRes := addPodRequestResource pod
                  (acc.1 + podRes.MilliCPU, acc.2 + podRes.Memory)
                else acc) acc
          else acc) acc
      = (acc.1 + weightedCPU pods, acc.2 + weightedMem pods) := by
  intro pods
  induction pods with
  | nil => intro acc; simp [weightedCPU, weightedMem]
  | cons p ps ih =>
    intro acc
    rw [List.foldl_cons]
    by_cases hp : (p.phase == "Running") = true
    · rw [if_pos hp, pod_conds_foldl p p.conditions acc, ih]
      unfold weightedCPU weightedMem readyTrueCount addPodRequestResource
      simp only [List.map_cons, List.sum_cons, if_pos hp, Prod.mk.injEq]
      constructor <;> ring
    · rw [if_neg hp, ih]
      unfold weightedCPU weightedMem
      simp only [List.map_cons, List.sum_cons, if_neg hp, Prod.mk.injEq]
      constructor <;> ring

/-- getUsedResource in closed form: decimal-SI CPU milli-units and
binary-SI memory bytes of the weighted totals. -/
theorem getUsedResource_weighted (pods : List Pod) :
    getUsedResource pods
      = [("cpu", Quantity.newMilli (weightedCPU pods) DecimalSI),
         ("memory", Quantity.newQuantity (weightedMem pods) BinarySI)] := by
  simp only [getUsedResource]
  rw [usedFold_weighted pods (0, 0)]
  simp

/-- Under at most one Ready/True condition per pod, the weighted totals are
the once-per-qualifying-pod totals. -/
theorem weighted_eq_once (pods : List Pod) (h : ∀ p ∈ pods, readyTrueCount p ≤ 1) :
    weightedCPU pods = usedCPUOncePerPod pods ∧ weightedMem pods = usedMemOncePerPod pods := by
  induction pods with
  | nil => exact ⟨rfl, rfl⟩
  | cons p ps ih =>
    have hps := ih fun q hq => h q (List.mem_cons_of_mem _ hq)
    have hp := h p (List.mem_cons_self _ _)
    have hterm : ∀ z : Int,
        (if p.phase == "Running" then (readyTrueCount p : Int) * z else 0)
          = (if podQualifies p then z else 0) := by
      intro z
      by_cases hr : (p.phase == "Running") = true
      · rw [if_pos hr]
        cases hcnt : readyTrueCount p with
        | zero =>
          have hnone : p.conditions.any (fun c => c.type == "Ready" && c.status == "True") = false := by
            unfold readyTrueCount at hcnt
            rw [List.length_eq_zero, List.filter_eq_nil_iff] at hcnt
            rw [List.any_eq_false]
            exact hcnt
          have hq : podQualifies p = false := by
            unfold podQualifies
            rw [hnone, Bool.and_false]
          rw [hq]
          simp
        | succ n =>
          have hn : n = 0 := by omega
          subst hn
          have hpos : (p.conditions.filter fun c => c.type == "Ready" && c.status == "True") ≠ [] := by
            unfold readyTrueCount at hcnt
            intro hnil
            rw [hnil] at hcnt
            simp at hcnt
          obtain ⟨a, ha⟩ := List.exists_mem_of_ne_nil _ hpos
          have ham := List.mem_filter.mp ha
          have hq : podQualifies p = true := by
            unfold podQualifies
            rw [hr, Bool.true_and, List.any_eq_true]
            exact ⟨a, ham.1, ham.2⟩
          rw [hq]
          simp
      · have hr2 : (p.phase == "Running") = false := by simpa using hr
        have hq : podQualifies p = false := by
          unfold podQualifies
          rw [hr2, Bool.false_and]
        rw [hq, hr2]
        simp
    constructor
    · unfold weightedCPU usedCPUOncePerPod
      simp only [List.map_cons, List.sum_cons]
      rw [hterm ((calculateResource p).MilliCPU)]
      unfold weightedCPU usedCPUOncePerPod at hps
      rw [hps.1]
    · unfold weightedMem usedMemOncePerPod
      simp only [List.map_cons, List.sum_cons]
      rw [hterm ((calculateResource p).Memory)]
      unfold weightedMem usedMemOncePerPod at hps
      rw [hps.2]

/-- C7 counterexample: a Running pod with TWO Ready/True conditions and a
100m CPU request is accumulated once per condition — the used CPU total is
200m, not the once-per-pod 100m the claim states. -/
theorem C7_counterexample :
    getUsedResource [podDupReady]
        = [("cpu", Quantity.newMilli 200 DecimalSI), ("memory", Quantity.newQuantity 0 BinarySI)] ∧
    usedResourceOncePerPod [podDupReady]
        = [("cpu", Quantity.newMilli 100 DecimalSI), ("memory", Quantity.newQuantity 0 BinarySI)] ∧
    getUsedResource [podDupReady] ≠ usedResourceOncePerPod [podDupReady] := by
  decide

/-- C7 (amended): a pod's requests are accumulated once per Ready/True
condition it carries while Running; hence for pod lists whose pods carry at
most one Ready condition (the Kubernetes invariant), the used totals are
exactly the once-per-qualifying-pod sums of container CPU milli-units
(decimal scale) and memory bytes (binary scale). -/
theorem C7_used_resources_amended :
    ∀ pods : List Pod, (∀ p ∈ pods, readyTrueCount p ≤ 1) →
      getUsedResource pods = usedResourceOncePerPod pods := by
  intro pods h
  rw [getUsedResource_weighted]
  have hw := weighted_eq_once pods h
  unfold usedResourceOncePerPod
  rw [hw.1, hw.2]

/-- C7 witness: the spec's example — two qualifying pods requesting
500m/128Mi and 250m/64Mi and one Running-but-not-Ready pod give used
CPU 750m and used memory 192Mi. -/
theorem C7_used_resources_amended_witness :
    getUsedResource examplePods
      = [("cpu", Quantity.newMilli 750 DecimalSI),
         ("memory", Quantity.newQuantity 201326592 BinarySI)] := by
  have h := C7_used_resources_amended examplePods (by decide)
  rw [h]
  decide

/-- C9 witness: the online-healthy template at time 5, its type, and the
single-condition invariant after the transition tracker. -/
theorem C9_single_ready_condition_witness :
    generateReadyCondition true true 5
      = [⟨ClusterConditionReady, conditionTrue, clusterReady, clusterHealthy, 5⟩] ∧
    (⟨ClusterConditionReady, conditionTrue, clusterReady, clusterHealthy, 5⟩ : Condition).type
      = ClusterConditionReady ∧
    ((setTransitionTime statusReadyAt7
        { ClusterStatus.zero with conditions := generateReadyCondition true true 5 }).conditions).length
      = 1 :=
  have h := C9_single_ready_condition true true 5
  ⟨by simpa using h.1,
   h.2.2.1 ⟨ClusterConditionReady, conditionTrue, clusterReady, clusterHealthy, 5⟩ (by decide),
   h.2.2.2 statusReadyAt7⟩

end Karmada
